import Mathlib

/-!
  Verification development for the amethyst network transport layer
  (simulation/transport/tcp.rs and simulation/transport/laminar.rs).

  The systems are shallowly embedded as pure Lean functions over explicit
  state.  Socket and stream I/O performed by the surrounding platform is
  represented by oracle functions passed as parameters (connect results,
  write results, peer-address resolution, sequences of read outcomes);
  each system returns its updated state together with the list of
  NetworkSimulationEvent values it wrote to the event channel and a trace
  of the raw socket operations it performed.
-/

/-- A socket address.  Addresses are opaque to the transport layer, so a
natural number stands in for SocketAddr. -/
abbrev Addr := Nat

/-- An opaque payload byte sequence. -/
abbrev Payload := List Nat

/-- An opaque stream handle standing in for a TcpStream value. -/
abbrev StreamHandle := Nat

/-- Modelled from the spec: the closed delivery-requirement taxonomy
(section 3 of the spec; the requirements module itself is not among the
provided sources).  An ordering/stream identifier is an optional small
integer. -/
inductive DeliveryRequirement where
  | Unreliable
  | UnreliableSequenced (stream : Option Nat)
  | Reliable
  | ReliableSequenced (stream : Option Nat)
  | ReliableOrdered (stream : Option Nat)
  | Default
deriving DecidableEq

/-- Modelled from the spec: a queued outbound message, a destination
address plus an opaque payload and a delivery requirement (spec section 3;
the message module itself is not among the provided sources). -/
structure Message where
  destination : Addr
  payload : Payload
  delivery : DeliveryRequirement
deriving DecidableEq

/-- The kind of an I/O error, as distinguished by the transport systems:
WouldBlock and ConnectionReset are matched explicitly, every other kind is
handled by a catch-all arm. -/
inductive IOErrorKind where
  | wouldBlock
  | connectionReset
  | other (n : Nat)
deriving DecidableEq

/-- An I/O error value; only its kind is observable to this layer. -/
structure IOError where
  kind : IOErrorKind
deriving DecidableEq

/-- Modelled from the spec: the unified inbound event variants appended to
the event channel (spec section 3; the events module itself is not among
the provided sources). -/
inductive NetworkSimulationEvent where
  | Message (addr : Addr) (bytes : Payload)
  | Connect (addr : Addr)
  | Disconnect (addr : Addr)
  | ConnectionError (e : IOError) (addr : Option Addr)
  | SendError (e : IOError) (msg : Message)
  | RecvError (e : IOError)
deriving DecidableEq

/-- Modelled from the spec: the shared outbound message queue
(TransportResource; spec section 4.2 — the transport module root is not
among the provided sources).  Holds pending messages in enqueue order. -/
structure TransportResource where
  messages : List Message
deriving DecidableEq

/-- Modelled from the spec: get_messages reads the pending messages
non-destructively. -/
def TransportResource.get_messages (t : TransportResource) : List Message :=
  t.messages

/-- Modelled from the spec: drain_messages_to_send under the gate
predicate.  If the gate returns false the drain yields no messages and the
queue is left untouched; if it returns true the drain is destructive and
total, handing over every message in enqueue order. -/
def TransportResource.drain_messages_to_send (t : TransportResource) (gate : Bool) :
    List Message × TransportResource :=
  if gate then (t.messages, ⟨[]⟩) else ([], t)

/-- One entry of the stream-backend connection table: remote address, the
liveness flag and the stream handle (tcp.rs stores
HashMap of SocketAddr to (bool, TcpStream)). -/
structure StreamEntry where
  addr : Addr
  active : Bool
  handle : StreamHandle
deriving DecidableEq

/-- The TcpNetworkResource of tcp.rs: optional listener, the connection
table and the fixed receive buffer. -/
structure TcpNetworkResource where
  listener : Option Nat
  streams : List StreamEntry
  recv_buffer : Payload
deriving DecidableEq

/-- TcpNetworkResource::new: empty table, a zero-filled receive buffer of
the requested size. -/
def TcpNetworkResource.new (listener : Option Nat) (recv_buffer_size_bytes : Nat) :
    TcpNetworkResource :=
  ⟨listener, [], List.replicate recv_buffer_size_bytes 0⟩

/-- TcpNetworkResource::get_stream: look up the entry for an address. -/
def TcpNetworkResource.get_stream (net : TcpNetworkResource) (addr : Addr) :
    Option StreamEntry :=
  net.streams.find? (fun e => e.addr == addr)

/-- Whether the connection table contains a key (contains_key). -/
def hasStream (s : List StreamEntry) (a : Addr) : Bool :=
  s.any (fun e => e.addr == a)

/-- The connect loop of build_tcp_stream_management_system (tcp.rs lines
79 to 95): for each queued message whose destination is not yet a table
key, attempt TcpStream::connect; failure emits ConnectionError(e, Some
destination), success inserts a live entry.  The third component records
every address on which a connect attempt was made. -/
def connectPhase (connect : Addr → Except IOError StreamHandle) :
    List Message → List StreamEntry →
    List StreamEntry × List NetworkSimulationEvent × List Addr
  | [], s => (s, [], [])
  | m :: ms, s =>
    if hasStream s m.destination then connectPhase connect ms s
    else
      match connect m.destination with
      | .error e =>
        let r := connectPhase connect ms s
        (r.1, .ConnectionError e (some m.destination) :: r.2.1, m.destination :: r.2.2)
      | .ok h =>
        let r := connectPhase connect ms (s ++ [⟨m.destination, true, h⟩])
        (r.1, r.2.1, m.destination :: r.2.2)

/-- The retain pass of build_tcp_stream_management_system (tcp.rs lines
97 to 102): remove every entry whose liveness flag is false, emitting
Disconnect(addr) for each removed entry. -/
def reapPhase : List StreamEntry → List StreamEntry × List NetworkSimulationEvent
  | [] => ([], [])
  | e :: rest =>
    let r := reapPhase rest
    if e.active then (e :: r.1, r.2) else (r.1, .Disconnect e.addr :: r.2)

/-- build_tcp_stream_management_system (tcp.rs lines 72 to 106): first the
connect loop over the (non-destructively read) outbound queue, then the
reap pass.  Returns the transport resource (held read-only by the system),
the updated TcpNetworkResource, the emitted events in order, and the list
of attempted connect addresses. -/
def build_tcp_stream_management_system (connect : Addr → Except IOError StreamHandle)
    (transport : TransportResource) (net : TcpNetworkResource) :
    TransportResource × TcpNetworkResource × List NetworkSimulationEvent × List Addr :=
  let c := connectPhase connect transport.get_messages net.streams
  let r := reapPhase c.1
  (transport, { net with streams := r.1 }, c.2.1 ++ r.2, c.2.2)

/-- A raw write performed on a stream socket: destination address, stream
handle and the bytes written. -/
structure SockWrite where
  addr : Addr
  handle : StreamHandle
  bytes : Payload
deriving DecidableEq

/-- write_message (tcp.rs lines 167 to 177): look up the destination
entry; if absent, do nothing at all; otherwise write the payload to the
stream, emitting SendError(e, message) when the write fails.  Returns the
events emitted and the successful raw writes. -/
def write_message (write : Addr → StreamHandle → Except IOError Unit)
    (net : TcpNetworkResource) (m : Message) :
    List NetworkSimulationEvent × List SockWrite :=
  match net.get_stream m.destination with
  | none => ([], [])
  | some e =>
    match write m.destination e.handle with
    | .ok _ => ([], [⟨m.destination, e.handle, m.payload⟩])
    | .error err => ([.SendError err m], [])

/-- The per-message loop of build_tcp_network_send_system (tcp.rs lines
149 to 163).  ReliableOrdered carrying a stream id is accepted with a
warning and written; ReliableOrdered without a stream id and Default are
written; every other delivery requirement panics, which is modelled by
stopping the loop and returning the offending requirement as the fatal
component. -/
def sendLoop (write : Addr → StreamHandle → Except IOError Unit)
    (net : TcpNetworkResource) :
    List Message →
    List NetworkSimulationEvent × List SockWrite × Option DeliveryRequirement
  | [] => ([], [], none)
  | m :: ms =>
    match m.delivery with
    | .ReliableOrdered (some _) =>
      let w := write_message write net m
      let r := sendLoop write net ms
      (w.1 ++ r.1, w.2 ++ r.2.1, r.2.2)
    | .ReliableOrdered none =>
      let w := write_message write net m
      let r := sendLoop write net ms
      (w.1 ++ r.1, w.2 ++ r.2.1, r.2.2)
    | .Default =>
      let w := write_message write net m
      let r := sendLoop write net ms
      (w.1 ++ r.1, w.2 ++ r.2.1, r.2.2)
    | d => ([], [], some d)

/-- build_tcp_network_send_system (tcp.rs lines 141 to 165): drain the
outbound queue under the gate, then run the per-message loop.  Returns the
queue after draining, the emitted events, the raw writes and the fatal
configuration error, if any. -/
def build_tcp_network_send_system (write : Addr → StreamHandle → Except IOError Unit)
    (gate : Bool) (transport : TransportResource) (net : TcpNetworkResource) :
    TransportResource × List NetworkSimulationEvent × List SockWrite ×
      Option DeliveryRequirement :=
  let d := transport.drain_messages_to_send gate
  let r := sendLoop write net d.1
  (d.2, r.1, r.2.1, r.2.2)

/-- Delivery requirements rejected by the stream backend: everything
except ReliableOrdered and Default. -/
def unsupportedByTcp : DeliveryRequirement → Bool
  | .ReliableOrdered _ => false
  | .Default => false
  | _ => true

/-- The outcome of one non-blocking read call on a stream: either data is
available (the read returns up to buffer-length bytes of it) or the call
fails with an I/O error.  A peer that has closed the stream is the ok
outcome with no bytes available. -/
inductive ReadOutcome where
  | ok (avail : Payload)
  | err (e : IOError)
deriving DecidableEq

/-- The inner read loop of build_tcp_network_recv_system (tcp.rs lines
198 to 225), consuming a sequence of read outcomes.  A positive-length
read emits Message(peer, bytes) and continues; a zero-length read clears
the liveness flag and stops; ConnectionReset clears the flag and stops;
WouldBlock stops cleanly; any other error emits RecvError and stops.
Returns the liveness flag the loop leaves behind (true when it never
cleared it) and the emitted events. -/
def readLoop (bufLen : Nat) (peer : Addr) :
    List ReadOutcome → Bool × List NetworkSimulationEvent
  | [] => (true, [])
  | .ok avail :: rest =>
    let n := min bufLen avail.length
    if 0 < n then
      let r := readLoop bufLen peer rest
      (r.1, .Message peer (avail.take n) :: r.2)
    else (false, [])
  | .err e :: _ =>
    match e.kind with
    | .connectionReset => (false, [])
    | .wouldBlock => (true, [])
    | _ => (true, [.RecvError e])

/-- Processing of one table entry by build_tcp_network_recv_system
(tcp.rs lines 186 to 226): a failed peer-address resolution clears the
liveness flag and skips the entry without reading; otherwise the read
loop runs and its result is conjoined onto the current flag (the loop only
ever clears the flag, never sets it). -/
def recvEntry (bufLen : Nat) (peerAddrOf : StreamHandle → Except IOError Addr)
    (readsOf : StreamHandle → List ReadOutcome) (e : StreamEntry) :
    StreamEntry × List NetworkSimulationEvent :=
  match peerAddrOf e.handle with
  | .error _ => ({ e with active := false }, [])
  | .ok peer =>
    let r := readLoop bufLen peer (readsOf e.handle)
    ({ e with active := e.active && r.1 }, r.2)

/-- The iteration of build_tcp_network_recv_system over the whole
connection table, in table order. -/
def recvAll (bufLen : Nat) (peerAddrOf : StreamHandle → Except IOError Addr)
    (readsOf : StreamHandle → List ReadOutcome) :
    List StreamEntry → List StreamEntry × List NetworkSimulationEvent
  | [] => ([], [])
  | e :: rest =>
    let r1 := recvEntry bufLen peerAddrOf readsOf e
    let r2 := recvAll bufLen peerAddrOf readsOf rest
    (r1.1 :: r2.1, r1.2 ++ r2.2)

/-- build_tcp_network_recv_system (tcp.rs lines 180 to 228): run the read
loop over every table entry using the shared receive buffer. -/
def build_tcp_network_recv_system (peerAddrOf : StreamHandle → Except IOError Addr)
    (readsOf : StreamHandle → List ReadOutcome) (net : TcpNetworkResource) :
    TcpNetworkResource × List NetworkSimulationEvent :=
  let r := recvAll net.recv_buffer.length peerAddrOf readsOf net.streams
  ({ net with streams := r.1 }, r.2)

/-- The packet variants of the wrapped laminar library (an external
collaborator; its constructors are the five Packet builders used in
laminar.rs). -/
inductive Packet where
  | unreliable (addr : Addr) (payload : Payload)
  | unreliable_sequenced (addr : Addr) (payload : Payload) (stream : Option Nat)
  | reliable_unordered (addr : Addr) (payload : Payload)
  | reliable_sequenced (addr : Addr) (payload : Payload) (stream : Option Nat)
  | reliable_ordered (addr : Addr) (payload : Payload) (stream : Option Nat)
deriving DecidableEq

/-- A laminar transport error is either an I/O error or some other
library-internal error kind. -/
inductive LaminarErrorKind where
  | IOError (e : IOError)
  | other (n : Nat)
deriving DecidableEq

/-- The packet construction match of build_laminar_network_send_system
(laminar.rs lines 65 to 96). -/
def packet_of_message (m : Message) : Packet :=
  match m.delivery with
  | .Unreliable => .unreliable m.destination m.payload
  | .UnreliableSequenced stream_id =>
    .unreliable_sequenced m.destination m.payload stream_id
  | .Reliable => .reliable_unordered m.destination m.payload
  | .ReliableSequenced stream_id =>
    .reliable_sequenced m.destination m.payload stream_id
  | .ReliableOrdered stream_id =>
    .reliable_ordered m.destination m.payload stream_id
  | .Default => .reliable_ordered m.destination m.payload none

/-- The per-message loop of build_laminar_network_send_system (laminar.rs
lines 64 to 107): build the packet, hand it to socket.send; an I/O error
emits SendError(e, message), any other error is only logged, success emits
nothing.  Returns the events and every packet handed to the socket. -/
def laminarSendLoop (send : Packet → Except LaminarErrorKind Unit) :
    List Message → List NetworkSimulationEvent × List Packet
  | [] => ([], [])
  | m :: ms =>
    let packet := packet_of_message m
    let evs : List NetworkSimulationEvent :=
      match send packet with
      | .error (.IOError e) => [.SendError e m]
      | .error _ => []
      | .ok _ => []
    let r := laminarSendLoop send ms
    (evs ++ r.1, packet :: r.2)

/-- build_laminar_network_send_system (laminar.rs lines 53 to 111): when a
socket is configured, drain the queue under the gate and run the send
loop; with no socket the stage is a no-op. -/
def build_laminar_network_send_system (send : Packet → Except LaminarErrorKind Unit)
    (socketConfigured : Bool) (gate : Bool) (transport : TransportResource) :
    TransportResource × List NetworkSimulationEvent × List Packet :=
  if socketConfigured then
    let d := transport.drain_messages_to_send gate
    let r := laminarSendLoop send d.1
    (d.2, r.1, r.2)
  else (transport, [], [])

/-- N consecutive runs of the stream-backend send stage with a fixed gate
value, accumulating events and raw writes across the ticks. -/
def iterTcpSend (write : Addr → StreamHandle → Except IOError Unit)
    (net : TcpNetworkResource) (gate : Bool) :
    Nat → TransportResource →
    TransportResource × List NetworkSimulationEvent × List SockWrite
  | 0, t => (t, [], [])
  | n + 1, t =>
    let r := build_tcp_network_send_system write gate t net
    let r2 := iterTcpSend write net gate n r.1
    (r2.1, r.2.1 ++ r2.2.1, r.2.2.1 ++ r2.2.2)

/-- N consecutive runs of the packet-backend send stage with a fixed gate
value, accumulating events and handed packets across the ticks. -/
def iterLaminarSend (send : Packet → Except LaminarErrorKind Unit)
    (socketConfigured : Bool) (gate : Bool) :
    Nat → TransportResource →
    TransportResource × List NetworkSimulationEvent × List Packet
  | 0, t => (t, [], [])
  | n + 1, t =>
    let r := build_laminar_network_send_system send socketConfigured gate t
    let r2 := iterLaminarSend send socketConfigured gate n r.1
    (r2.1, r.2.1 ++ r2.2.1, r.2.2 ++ r2.2.2)

/-! ## Helper lemmas -/

theorem drain_closed (t : TransportResource) :
    t.drain_messages_to_send false = ([], t) := rfl

theorem drain_open (t : TransportResource) :
    t.drain_messages_to_send true = (t.messages, ⟨[]⟩) := rfl

theorem tcp_send_closed (write : Addr → StreamHandle → Except IOError Unit)
    (t : TransportResource) (net : TcpNetworkResource) :
    build_tcp_network_send_system write false t net = (t, [], [], none) := rfl

theorem laminar_send_closed (send : Packet → Except LaminarErrorKind Unit)
    (cfg : Bool) (t : TransportResource) :
    build_laminar_network_send_system send cfg false t = (t, [], []) := by
  cases cfg <;> rfl

theorem sendLoop_cons_accepted (write : Addr → StreamHandle → Except IOError Unit)
    (net : TcpNetworkResource) (m : Message) (ms : List Message)
    (h : unsupportedByTcp m.delivery = false) :
    sendLoop write net (m :: ms) =
      ((write_message write net m).1 ++ (sendLoop write net ms).1,
       (write_message write net m).2 ++ (sendLoop write net ms).2.1,
       (sendLoop write net ms).2.2) := by
  rcases m with ⟨dest, pl, del⟩
  cases del <;> simp_all [unsupportedByTcp, sendLoop]
  case ReliableOrdered sid => cases sid <;> simp [sendLoop]

theorem sendLoop_cons_unsupported (write : Addr → StreamHandle → Except IOError Unit)
    (net : TcpNetworkResource) (m : Message) (ms : List Message)
    (h : unsupportedByTcp m.delivery = true) :
    sendLoop write net (m :: ms) = ([], [], some m.delivery) := by
  rcases m with ⟨dest, pl, del⟩
  cases del <;> simp_all [unsupportedByTcp, sendLoop]

/-- C1: with the gate closed, the send stage of either backend performs no
raw write and hands no packet to the socket, emits no event, and leaves
the outbound queue exactly as it was, for any number N of consecutive
gate-closed ticks and any initial queue contents. -/
theorem gate_closed_send_is_noop (write : Addr → StreamHandle → Except IOError Unit)
    (net : TcpNetworkResource) (send : Packet → Except LaminarErrorKind Unit)
    (cfg : Bool) (N : Nat) (t : TransportResource) :
    iterTcpSend write net false N t = (t, [], []) ∧
    iterLaminarSend send cfg false N t = (t, [], []) := by
  constructor
  · induction N with
    | zero => rfl
    | succ n ih => simp [iterTcpSend, tcp_send_closed, ih]
  · induction N with
    | zero => rfl
    | succ n ih => simp [iterLaminarSend, laminar_send_closed, ih]

/-- C6: the packet backend constructs its backend-native packet from the
delivery requirement by the fixed mapping (Unreliable to unreliable,
UnreliableSequenced to unreliable-sequenced, Reliable to
reliable-unordered, ReliableSequenced to reliable-sequenced,
ReliableOrdered to reliable-ordered, Default to reliable-ordered with no
stream), carrying the message destination and payload, and the send loop
hands exactly the so-constructed packets to the socket, one per drained
message. -/
theorem laminar_packet_construction (dest : Addr) (payload : Payload)
    (sid : Option Nat) (send : Packet → Except LaminarErrorKind Unit)
    (msgs : List Message) :
    packet_of_message ⟨dest, payload, .Unreliable⟩ = .unreliable dest payload ∧
    packet_of_message ⟨dest, payload, .UnreliableSequenced sid⟩ =
      .unreliable_sequenced dest payload sid ∧
    packet_of_message ⟨dest, payload, .Reliable⟩ = .reliable_unordered dest payload ∧
    packet_of_message ⟨dest, payload, .ReliableSequenced sid⟩ =
      .reliable_sequenced dest payload sid ∧
    packet_of_message ⟨dest, payload, .ReliableOrdered sid⟩ =
      .reliable_ordered dest payload sid ∧
    packet_of_message ⟨dest, payload, .Default⟩ = .reliable_ordered dest payload none ∧
    (laminarSendLoop send msgs).2 = msgs.map packet_of_message := by
  refine ⟨rfl, rfl, rfl, rfl, rfl, rfl, ?_⟩
  induction msgs with
  | nil => rfl
  | cons m ms ih => simp [laminarSendLoop, ih]

/-- C7: a packet-backend send whose underlying transport reports an I/O
error emits SendError carrying the error and the message; any other
transport error emits no event; success emits no event; and with no socket
configured the whole send stage is a no-op. -/
theorem laminar_send_error_policy (send : Packet → Except LaminarErrorKind Unit)
    (m : Message) (e : IOError) (n : Nat) (t : TransportResource) (gate : Bool) :
    (send (packet_of_message m) = .error (.IOError e) →
      laminarSendLoop send [m] = ([.SendError e m], [packet_of_message m])) ∧
    (send (packet_of_message m) = .error (.other n) →
      laminarSendLoop send [m] = ([], [packet_of_message m])) ∧
    (send (packet_of_message m) = .ok () →
      laminarSendLoop send [m] = ([], [packet_of_message m])) ∧
    build_laminar_network_send_system send false gate t = (t, [], []) := by
  refine ⟨fun h => ?_, fun h => ?_, fun h => ?_, rfl⟩ <;>
    simp [laminarSendLoop, h]

theorem laminar_send_error_policy_witness :
    laminarSendLoop (fun _ => .error (.IOError ⟨.other 0⟩)) [⟨1, [2], .Default⟩] =
      ([.SendError ⟨.other 0⟩ ⟨1, [2], .Default⟩], [.reliable_ordered 1 [2] none]) ∧
    laminarSendLoop (fun _ => .error (.other 3)) [⟨1, [2], .Default⟩] =
      ([], [.reliable_ordered 1 [2] none]) ∧
    laminarSendLoop (fun _ => .ok ()) [⟨1, [2], .Default⟩] =
      ([], [.reliable_ordered 1 [2] none]) :=
  ⟨(laminar_send_error_policy (fun _ => .error (.IOError ⟨.other 0⟩))
      ⟨1, [2], .Default⟩ ⟨.other 0⟩ 0 ⟨[]⟩ true).1 rfl,
   (laminar_send_error_policy (fun _ => .error (.other 3))
      ⟨1, [2], .Default⟩ ⟨.other 0⟩ 3 ⟨[]⟩ true).2.1 rfl,
   (laminar_send_error_policy (fun _ => .ok ())
      ⟨1, [2], .Default⟩ ⟨.other 0⟩ 0 ⟨[]⟩ true).2.2.1 rfl⟩

/-- C10: the stream-backend connection-maintenance stage holds the
outbound queue read-only, so after maintenance the queue is exactly what
it was, and a subsequent open-gate drain in the same tick still yields
every originally pending message in order. -/
theorem management_queue_nondestructive (connect : Addr → Except IOError StreamHandle)
    (t : TransportResource) (net : TcpNetworkResource) :
    (build_tcp_stream_management_system connect t net).1 = t ∧
    ((build_tcp_stream_management_system connect t net).1).drain_messages_to_send true =
      (t.get_messages, ⟨[]⟩) :=
  ⟨rfl, rfl⟩

/-- C4 counterexample: with an empty connection table and one drained
Default-delivery message, the stream-backend send stage removes the
message from the queue but performs no write and emits no event at all —
in particular no SendError carrying the message — refuting the dichotomy
that every drained accepted message is written or reported. -/
theorem tcp_send_silent_drop_cex :
    build_tcp_network_send_system (fun _ _ => .ok ()) true
      ⟨[⟨1, [7], .Default⟩]⟩ ⟨none, [], []⟩ = (⟨[]⟩, [], [], none) := rfl

/-- C4 amended: a message removed from the outbound queue is never
requeued (after an open-gate send the queue is empty); if the destination
has a table entry and the write fails, SendError carrying the message is
emitted; but if the destination has no table entry the message is dropped
silently, with no write and no event. -/
theorem tcp_send_accepted_message_fate (write : Addr → StreamHandle → Except IOError Unit)
    (net : TcpNetworkResource) (m : Message) (err : IOError) (entry : StreamEntry)
    (t : TransportResource) :
    (build_tcp_network_send_system write true t net).1 = ⟨[]⟩ ∧
    (unsupportedByTcp m.delivery = false →
      net.get_stream m.destination = some entry →
      write m.destination entry.handle = .error err →
      sendLoop write net [m] = ([.SendError err m], [], none)) ∧
    (unsupportedByTcp m.delivery = false →
      net.get_stream m.destination = none →
      sendLoop write net [m] = ([], [], none)) := by
  have hnil : sendLoop write net [] = ([], [], none) := rfl
  refine ⟨rfl, fun h1 h2 h3 => ?_, fun h1 h2 => ?_⟩ <;>
    rw [sendLoop_cons_accepted write net m [] h1, hnil] <;>
    simp [write_message, h2]
  simp [h3]

theorem tcp_send_accepted_message_fate_witness :
    sendLoop (fun _ _ => .error ⟨.other 1⟩) ⟨none, [⟨4, true, 0⟩], []⟩
      [⟨4, [9], .Default⟩] =
      ([.SendError ⟨.other 1⟩ ⟨4, [9], .Default⟩], [], none) ∧
    sendLoop (fun _ _ => .error ⟨.other 1⟩) ⟨none, [], []⟩ [⟨4, [9], .Default⟩] =
      ([], [], none) :=
  ⟨(tcp_send_accepted_message_fate (fun _ _ => .error ⟨.other 1⟩)
      ⟨none, [⟨4, true, 0⟩], []⟩ ⟨4, [9], .Default⟩ ⟨.other 1⟩ ⟨4, true, 0⟩
      ⟨[]⟩).2.1 rfl rfl rfl,
   (tcp_send_accepted_message_fate (fun _ _ => .error ⟨.other 1⟩)
      ⟨none, [], []⟩ ⟨4, [9], .Default⟩ ⟨.other 1⟩ ⟨4, true, 0⟩
      ⟨[]⟩).2.2 rfl rfl⟩

theorem hasStream_append (s1 s2 : List StreamEntry) (a : Addr) :
    hasStream (s1 ++ s2) a = (hasStream s1 a || hasStream s2 a) := by
  simp [hasStream]

theorem connectPhase_attempts_skip_existing (c : Addr → Except IOError StreamHandle)
    (ms : List Message) :
    ∀ s a, hasStream s a = true → a ∉ (connectPhase c ms s).2.2 := by
  induction ms with
  | nil => intro s a _; simp [connectPhase]
  | cons m rest ih =>
    intro s a ha
    by_cases hk : hasStream s m.destination
    · simpa [connectPhase, hk] using ih s a ha
    · have hne : a ≠ m.destination := fun h => hk (h ▸ ha)
      cases hc : c m.destination with
      | error e =>
        have hatt : (connectPhase c (m :: rest) s).2.2 =
            m.destination :: (connectPhase c rest s).2.2 := by
          simp [connectPhase, hk, hc]
        rw [hatt]
        intro hmem
        rcases List.mem_cons.mp hmem with h | h
        · exact hne h
        · exact ih s a ha h
      | ok h =>
        have hatt : (connectPhase c (m :: rest) s).2.2 =
            m.destination ::
              (connectPhase c rest (s ++ [⟨m.destination, true, h⟩])).2.2 := by
          simp [connectPhase, hk, hc]
        rw [hatt]
        intro hmem
        rcases List.mem_cons.mp hmem with h2 | h2
        · exact hne h2
        · exact ih (s ++ [⟨m.destination, true, h⟩]) a
            (by simp [hasStream_append, ha]) h2

theorem connectPhase_streams_decomp (c : Addr → Except IOError StreamHandle)
    (ms : List Message) :
    ∀ s, ∃ new, (connectPhase c ms s).1 = s ++ new ∧
      ∀ e ∈ new, e.active = true ∧ hasStream s e.addr = false := by
  induction ms with
  | nil => intro s; exact ⟨[], by simp [connectPhase]⟩
  | cons m rest ih =>
    intro s
    by_cases hk : hasStream s m.destination
    · obtain ⟨new, h1, h2⟩ := ih s
      exact ⟨new, by simpa [connectPhase, hk] using h1, h2⟩
    · cases hc : c m.destination with
      | error e =>
        obtain ⟨new, h1, h2⟩ := ih s
        refine ⟨new, ?_, h2⟩
        simpa [connectPhase, hk, hc] using h1
      | ok h =>
        obtain ⟨new, h1, h2⟩ := ih (s ++ [⟨m.destination, true, h⟩])
        refine ⟨⟨m.destination, true, h⟩ :: new, ?_, ?_⟩
        · simpa [connectPhase, hk, hc] using h1
        · intro e he
          rcases List.mem_cons.mp he with rfl | he2
          · exact ⟨rfl, by simpa using hk⟩
          · obtain ⟨ha, hb⟩ := h2 e he2
            refine ⟨ha, ?_⟩
            have := hasStream_append s [⟨m.destination, true, h⟩] e.addr
            rw [this] at hb
            exact (Bool.or_eq_false_iff.mp hb).1

theorem reapPhase_keys (a : Addr) :
    ∀ s : List StreamEntry,
      hasStream (reapPhase s).1 a = s.any (fun e => e.addr == a && e.active) := by
  intro s
  induction s with
  | nil => rfl
  | cons e rest ih =>
    simp only [hasStream] at ih
    by_cases he : e.active
    · simp [reapPhase, he, hasStream, ih]
    · simp [reapPhase, he, hasStream, ih]

theorem reapPhase_count (a : Addr) :
    ∀ s : List StreamEntry,
      ((reapPhase s).2).count (NetworkSimulationEvent.Disconnect a) =
        s.countP (fun e => e.addr == a && !e.active) := by
  intro s
  induction s with
  | nil => rfl
  | cons e rest ih =>
    by_cases he : e.active
    · simp [reapPhase, he, List.countP_cons, ih]
    · by_cases ha : e.addr = a
      · simp [reapPhase, he, List.countP_cons, List.count_cons, ih, ha]
      · simp [reapPhase, he, List.countP_cons, List.count_cons, ih, ha]

/-- C5 counterexample: the table holds a single dead entry for address 5
and the queue holds one message destined to address 5, with a connect
oracle that would succeed.  The maintenance pass makes no connect attempt
at all (fourth component), leaves an empty table, and emits only the
Disconnect — so dead entries are reaped after, not before, the connect
loop, and the dead entry suppresses the fresh connection attempt the
claim predicts. -/
theorem tcp_management_order_cex :
    build_tcp_stream_management_system (fun _ => .ok 9) ⟨[⟨5, [1], .Default⟩]⟩
      ⟨none, [⟨5, false, 3⟩], []⟩ =
      (⟨[⟨5, [1], .Default⟩]⟩, ⟨none, [], []⟩, [.Disconnect 5], []) := rfl

/-- C5 amended: within the maintenance pass the connect loop runs first
and the reap of dead entries second (the emitted events are exactly the
connect-loop events followed by the reap events); a queued message whose
destination already has a table entry — live or dead — causes no connect
attempt during that pass; the dead entry is removed (with its Disconnect)
only at the end of the pass, so a fresh connection for that address can
be attempted only on a later pass. -/
theorem tcp_management_connect_then_reap (connect : Addr → Except IOError StreamHandle)
    (t : TransportResource) (net : TcpNetworkResource) (m : Message)
    (entry : StreamEntry) (pre post : List StreamEntry) :
    ((build_tcp_stream_management_system connect t net).2.2.1 =
      (connectPhase connect t.get_messages net.streams).2.1 ++
        (reapPhase (connectPhase connect t.get_messages net.streams).1).2) ∧
    (m ∈ t.get_messages → hasStream net.streams m.destination = true →
      m.destination ∉ (build_tcp_stream_management_system connect t net).2.2.2) ∧
    (net.streams = pre ++ entry :: post → entry.active = false →
      (∀ e ∈ pre ++ post, e.addr ≠ entry.addr) →
      hasStream ((build_tcp_stream_management_system connect t net).2.1).streams
        entry.addr = false) := by
  refine ⟨rfl, fun _ hm => ?_, fun hs hdead hkeys => ?_⟩
  · exact connectPhase_attempts_skip_existing connect t.get_messages net.streams
      m.destination hm
  · show hasStream (reapPhase (connectPhase connect t.get_messages net.streams).1).1
      entry.addr = false
    obtain ⟨new, hdec, hnew⟩ :=
      connectPhase_streams_decomp connect t.get_messages net.streams
    rw [reapPhase_keys, hdec, hs]
    have hmem : hasStream (pre ++ entry :: post) entry.addr = true := by
      simp [hasStream]
    simp only [List.any_append, List.any_cons, Bool.or_eq_false_iff]
    refine ⟨⟨?_, ?_, ?_⟩, ?_⟩
    · rw [List.any_eq_false]
      intro e he
      have := hkeys e (List.mem_append.mpr (Or.inl he))
      simp [this]
    · simp [hdead]
    · rw [List.any_eq_false]
      intro e he
      have := hkeys e (List.mem_append.mpr (Or.inr he))
      simp [this]
    · rw [List.any_eq_false]
      intro e he
      have := (hnew e he).2
      rw [hs] at this
      have hne : e.addr ≠ entry.addr := fun hcontra => by
        rw [hcontra] at this
        rw [hmem] at this
        exact Bool.true_eq_false.mp this
      simp [hne]

theorem tcp_management_connect_then_reap_witness :
    5 ∉ (build_tcp_stream_management_system (fun _ => .ok 9) ⟨[⟨5, [1], .Default⟩]⟩
      ⟨none, [⟨5, false, 3⟩], []⟩).2.2.2 ∧
    hasStream ((build_tcp_stream_management_system (fun _ => .ok 9)
      ⟨[⟨5, [1], .Default⟩]⟩ ⟨none, [⟨5, false, 3⟩], []⟩).2.1).streams 5 = false :=
  ⟨(tcp_management_connect_then_reap (fun _ => .ok 9) ⟨[⟨5, [1], .Default⟩]⟩
      ⟨none, [⟨5, false, 3⟩], []⟩ ⟨5, [1], .Default⟩ ⟨5, false, 3⟩ [] []).2.1
      (by decide) (by decide),
   (tcp_management_connect_then_reap (fun _ => .ok 9) ⟨[⟨5, [1], .Default⟩]⟩
      ⟨none, [⟨5, false, 3⟩], []⟩ ⟨5, [1], .Default⟩ ⟨5, false, 3⟩ [] []).2.2
      rfl rfl (by decide)⟩

theorem write_message_writes_shape (write : Addr → StreamHandle → Except IOError Unit)
    (net : TcpNetworkResource) (m : Message) :
    ∀ w ∈ (write_message write net m).2, w.addr = m.destination ∧ w.bytes = m.payload := by
  intro w hw
  unfold write_message at hw
  cases hfind : net.get_stream m.destination with
  | none => rw [hfind] at hw; simp at hw
  | some e =>
    rw [hfind] at hw
    cases hwr : write m.destination e.handle with
    | ok u => simp [hwr] at hw; rw [hw]; exact ⟨rfl, rfl⟩
    | error err => simp [hwr] at hw

theorem sendLoop_writes_from_accepted (write : Addr → StreamHandle → Except IOError Unit)
    (net : TcpNetworkResource) :
    ∀ msgs : List Message, ∀ w ∈ (sendLoop write net msgs).2.1,
      ∃ m2, m2 ∈ msgs ∧ unsupportedByTcp m2.delivery = false ∧
        w.addr = m2.destination ∧ w.bytes = m2.payload := by
  intro msgs
  induction msgs with
  | nil => intro w hw; simp [sendLoop] at hw
  | cons m ms ih =>
    intro w hw
    cases hu : unsupportedByTcp m.delivery with
    | true =>
      rw [sendLoop_cons_unsupported write net m ms hu] at hw
      simp at hw
    | false =>
      rw [sendLoop_cons_accepted write net m ms hu] at hw
      rcases List.mem_append.mp hw with h | h
      · obtain ⟨ha, hb⟩ := write_message_writes_shape write net m w h
        exact ⟨m, List.mem_cons_self m ms, hu, ha, hb⟩
      · obtain ⟨m2, hm2, h1, h2, h3⟩ := ih w h
        exact ⟨m2, List.mem_cons_of_mem m hm2, h1, h2, h3⟩

theorem sendLoop_fatal_of_unsupported (write : Addr → StreamHandle → Except IOError Unit)
    (net : TcpNetworkResource) :
    ∀ msgs m, m ∈ msgs → unsupportedByTcp m.delivery = true →
      (sendLoop write net msgs).2.2 ≠ none := by
  intro msgs
  induction msgs with
  | nil => intro m hm; simp at hm
  | cons m0 ms ih =>
    intro m hm hu
    cases hu0 : unsupportedByTcp m0.delivery with
    | true => rw [sendLoop_cons_unsupported write net m0 ms hu0]; simp
    | false =>
      rw [sendLoop_cons_accepted write net m0 ms hu0]
      rcases List.mem_cons.mp hm with rfl | hmem
      · rw [hu] at hu0; exact absurd hu0 (by simp)
      · exact ih m hmem hu

/-- C3: a drained message whose delivery requirement is neither
ReliableOrdered nor Default makes the stream-backend send stage raise the
fatal configuration error, and that message is never written (every raw
write performed by the loop stems from a message with an accepted
requirement; a lone unsupported message produces no write, no event, and
the fatal error); a ReliableOrdered message carrying a stream id is
accepted and, when its destination stream exists and the write succeeds,
its payload is written with the stream id ignored. -/
theorem tcp_send_delivery_policy (write : Addr → StreamHandle → Except IOError Unit)
    (net : TcpNetworkResource) (msgs : List Message) (m : Message) (sid : Nat)
    (entry : StreamEntry) :
    (m ∈ msgs → unsupportedByTcp m.delivery = true →
      (sendLoop write net msgs).2.2 ≠ none) ∧
    (unsupportedByTcp m.delivery = true →
      sendLoop write net [m] = ([], [], some m.delivery)) ∧
    (∀ w ∈ (sendLoop write net msgs).2.1,
      ∃ m2, m2 ∈ msgs ∧ unsupportedByTcp m2.delivery = false ∧
        w.addr = m2.destination ∧ w.bytes = m2.payload) ∧
    (m.delivery = .ReliableOrdered (some sid) →
      net.get_stream m.destination = some entry →
      write m.destination entry.handle = .ok () →
      sendLoop write net [m] =
        ([], [⟨m.destination, entry.handle, m.payload⟩], none)) := by
  refine ⟨fun hm hu => sendLoop_fatal_of_unsupported write net msgs m hm hu,
    fun hu => sendLoop_cons_unsupported write net m [] hu,
    sendLoop_writes_from_accepted write net msgs,
    fun hd hfind hwr => ?_⟩
  have hacc : unsupportedByTcp m.delivery = false := by rw [hd]; rfl
  rw [sendLoop_cons_accepted write net m [] hacc]
  simp [sendLoop, write_message, hfind, hwr]

theorem tcp_send_delivery_policy_witness :
    (sendLoop (fun _ _ => .ok ()) ⟨none, [⟨2, true, 7⟩], []⟩
      [⟨2, [3], .Unreliable⟩]).2.2 ≠ none ∧
    sendLoop (fun _ _ => .ok ()) ⟨none, [⟨2, true, 7⟩], []⟩
      [⟨2, [3], .Unreliable⟩] = ([], [], some .Unreliable) ∧
    (∃ m2, m2 ∈ ([⟨2, [3], .Default⟩] : List Message) ∧
      unsupportedByTcp m2.delivery = false ∧
      (SockWrite.mk 2 7 [3]).addr = m2.destination ∧
      (SockWrite.mk 2 7 [3]).bytes = m2.payload) ∧
    sendLoop (fun _ _ => .ok ()) ⟨none, [⟨2, true, 7⟩], []⟩
      [⟨2, [3], .ReliableOrdered (some 4)⟩] = ([], [⟨2, 7, [3]⟩], none) :=
  ⟨(tcp_send_delivery_policy (fun _ _ => .ok ()) ⟨none, [⟨2, true, 7⟩], []⟩
      [⟨2, [3], .Unreliable⟩] ⟨2, [3], .Unreliable⟩ 0 ⟨2, true, 7⟩).1
      (by decide) rfl,
   (tcp_send_delivery_policy (fun _ _ => .ok ()) ⟨none, [⟨2, true, 7⟩], []⟩
      [⟨2, [3], .Unreliable⟩] ⟨2, [3], .Unreliable⟩ 0 ⟨2, true, 7⟩).2.1 rfl,
   (tcp_send_delivery_policy (fun _ _ => .ok ()) ⟨none, [⟨2, true, 7⟩], []⟩
      [⟨2, [3], .Default⟩] ⟨2, [3], .Default⟩ 0 ⟨2, true, 7⟩).2.2.1
      ⟨2, 7, [3]⟩ (by decide),
   (tcp_send_delivery_policy (fun _ _ => .ok ()) ⟨none, [⟨2, true, 7⟩], []⟩
      [⟨2, [3], .ReliableOrdered (some 4)⟩] ⟨2, [3], .ReliableOrdered (some 4)⟩ 4
      ⟨2, true, 7⟩).2.2.2 rfl (by decide) rfl⟩

/-- C8: the stream-backend receive pass obeys, for a live connection: a
positive-length read emits Message(peer, bytes read) and continues the
loop; a zero-length read clears the liveness flag and stops; a WouldBlock
error ends the loop with no event and no liveness change; a
ConnectionReset error clears the flag and stops; any other read error
emits RecvError and stops; and a failed peer-address resolution clears
the flag and skips the connection without any read. -/
theorem tcp_recv_read_loop_policy (bufLen : Nat) (peer : Addr) (avail : Payload)
    (rest : List ReadOutcome) (err : IOError)
    (peerAddrOf : StreamHandle → Except IOError Addr)
    (readsOf : StreamHandle → List ReadOutcome) (entry : StreamEntry)
    (e0 : IOError) (p0 : Addr) :
    (0 < min bufLen avail.length →
      readLoop bufLen peer (.ok avail :: rest) =
        ((readLoop bufLen peer rest).1,
         .Message peer (avail.take (min bufLen avail.length)) ::
           (readLoop bufLen peer rest).2)) ∧
    (min bufLen avail.length = 0 →
      readLoop bufLen peer (.ok avail :: rest) = (false, [])) ∧
    (err.kind = .wouldBlock → readLoop bufLen peer (.err err :: rest) = (true, [])) ∧
    (err.kind = .connectionReset →
      readLoop bufLen peer (.err err :: rest) = (false, [])) ∧
    (∀ n, err.kind = .other n →
      readLoop bufLen peer (.err err :: rest) = (true, [.RecvError err])) ∧
    (peerAddrOf entry.handle = .error e0 →
      recvEntry bufLen peerAddrOf readsOf entry = ({ entry with active := false }, [])) ∧
    (entry.active = true → peerAddrOf entry.handle = .ok p0 →
      recvEntry bufLen peerAddrOf readsOf entry =
        ({ entry with active := (readLoop bufLen p0 (readsOf entry.handle)).1 },
         (readLoop bufLen p0 (readsOf entry.handle)).2)) := by
  refine ⟨fun h => ?_, fun h => ?_, fun h => ?_, fun h => ?_, fun n h => ?_,
    fun h => ?_, fun hact h => ?_⟩
  · simp [readLoop, h]
  · simp [readLoop, h]
  · simp [readLoop, h]
  · simp [readLoop, h]
  · simp [readLoop, h]
  · simp [recvEntry, h]
  · simp [recvEntry, h, hact]

theorem tcp_recv_read_loop_policy_witness :
    readLoop 2 4 [.ok [9]] = (true, [.Message 4 [9]]) ∧
    readLoop 2 4 [.ok [], .ok [9]] = (false, []) ∧
    readLoop 2 4 [.err ⟨.wouldBlock⟩, .ok [9]] = (true, []) ∧
    readLoop 2 4 [.err ⟨.connectionReset⟩, .ok [9]] = (false, []) ∧
    readLoop 2 4 [.err ⟨.other 6⟩, .ok [9]] = (true, [.RecvError ⟨.other 6⟩]) ∧
    recvEntry 2 (fun _ => .error ⟨.other 6⟩) (fun _ => []) ⟨1, true, 0⟩ =
      (⟨1, false, 0⟩, []) ∧
    recvEntry 2 (fun _ => .ok 4) (fun _ => [.ok [9]]) ⟨1, true, 0⟩ =
      (⟨1, true, 0⟩, [.Message 4 [9]]) :=
  ⟨(tcp_recv_read_loop_policy 2 4 [9] [] ⟨.other 6⟩ (fun _ => .ok 4) (fun _ => [])
      ⟨1, true, 0⟩ ⟨.other 6⟩ 4).1 (by decide),
   (tcp_recv_read_loop_policy 2 4 [] [.ok [9]] ⟨.other 6⟩ (fun _ => .ok 4)
      (fun _ => []) ⟨1, true, 0⟩ ⟨.other 6⟩ 4).2.1 (by decide),
   (tcp_recv_read_loop_policy 2 4 [9] [.ok [9]] ⟨.wouldBlock⟩ (fun _ => .ok 4)
      (fun _ => []) ⟨1, true, 0⟩ ⟨.other 6⟩ 4).2.2.1 rfl,
   (tcp_recv_read_loop_policy 2 4 [9] [.ok [9]] ⟨.connectionReset⟩ (fun _ => .ok 4)
      (fun _ => []) ⟨1, true, 0⟩ ⟨.other 6⟩ 4).2.2.2.1 rfl,
   (tcp_recv_read_loop_policy 2 4 [9] [.ok [9]] ⟨.other 6⟩ (fun _ => .ok 4)
      (fun _ => []) ⟨1, true, 0⟩ ⟨.other 6⟩ 4).2.2.2.2.1 6 rfl,
   (tcp_recv_read_loop_policy 2 4 [9] [] ⟨.other 6⟩ (fun _ => .error ⟨.other 6⟩)
      (fun _ => []) ⟨1, true, 0⟩ ⟨.other 6⟩ 4).2.2.2.2.2.1 rfl,
   (tcp_recv_read_loop_policy 2 4 [9] [] ⟨.other 6⟩ (fun _ => .ok 4)
      (fun _ => [.ok [9]]) ⟨1, true, 0⟩ ⟨.other 6⟩ 4).2.2.2.2.2.2 rfl rfl⟩

theorem recvAll_length (bufLen : Nat) (peerAddrOf : StreamHandle → Except IOError Addr)
    (readsOf : StreamHandle → List ReadOutcome) :
    ∀ l : List StreamEntry, (recvAll bufLen peerAddrOf readsOf l).1.length = l.length := by
  intro l
  induction l with
  | nil => rfl
  | cons e rest ih => simp [recvAll, ih]

theorem recvEntry_zero_buf (peerAddrOf : StreamHandle → Except IOError Addr)
    (readsOf : StreamHandle → List ReadOutcome) (e : StreamEntry)
    (h : e.active = true →
      (∃ p, peerAddrOf e.handle = .ok p) ∧
      ∃ avail rest, readsOf e.handle = .ok avail :: rest) :
    (recvEntry 0 peerAddrOf readsOf e).1.active = false := by
  cases hact : e.active with
  | false =>
    unfold recvEntry
    cases peerAddrOf e.handle <;> simp [hact]
  | true =>
    obtain ⟨⟨p, hp⟩, avail, rest, hr⟩ := h hact
    simp [recvEntry, hp, hr, readLoop, hact]

theorem recvAll_zero_buf (peerAddrOf : StreamHandle → Except IOError Addr)
    (readsOf : StreamHandle → List ReadOutcome) :
    ∀ l : List StreamEntry,
      (∀ e ∈ l, e.active = true →
        (∃ p, peerAddrOf e.handle = .ok p) ∧
        ∃ avail rest, readsOf e.handle = .ok avail :: rest) →
      ∀ e2 ∈ (recvAll 0 peerAddrOf readsOf l).1, e2.active = false := by
  intro l
  induction l with
  | nil => intro _ e2 h2; simp [recvAll] at h2
  | cons e rest ih =>
    intro h e2 h2
    rcases List.mem_cons.mp (by simpa [recvAll] using h2) with rfl | hmem
    · exact recvEntry_zero_buf peerAddrOf readsOf e (h e (List.mem_cons_self e rest))
    · exact ih (fun x hx => h x (List.mem_cons_of_mem e hx)) e2 hmem

theorem reapPhase_all_dead :
    ∀ s : List StreamEntry, (∀ e ∈ s, e.active = false) →
      (reapPhase s).1 = [] ∧ (reapPhase s).2.length = s.length := by
  intro s
  induction s with
  | nil => intro _; exact ⟨rfl, rfl⟩
  | cons e rest ih =>
    intro h
    have he : e.active = false := h e (List.mem_cons_self e rest)
    obtain ⟨h1, h2⟩ := ih (fun x hx => h x (List.mem_cons_of_mem e hx))
    constructor
    · simp [reapPhase, he, h1]
    · simp [reapPhase, he, h2]

/-- C9: constructing the stream backend with a zero-byte receive buffer
makes the first receive pass mark every connection dead, whatever data
the peers actually have available (every read into the empty buffer
returns zero bytes, indistinguishable from a peer close); the subsequent
reap pass then removes every entry, emitting one Disconnect per entry. -/
theorem tcp_zero_recv_buffer_kills_all (listener : Option Nat)
    (peerAddrOf : StreamHandle → Except IOError Addr)
    (readsOf : StreamHandle → List ReadOutcome) (streams : List StreamEntry)
    (h : ∀ e ∈ streams, e.active = true →
      (∃ p, peerAddrOf e.handle = .ok p) ∧
      ∃ avail rest, readsOf e.handle = .ok avail :: rest) :
    (∀ e2 ∈ (build_tcp_network_recv_system peerAddrOf readsOf
        { TcpNetworkResource.new listener 0 with streams := streams }).1.streams,
      e2.active = false) ∧
    (reapPhase (build_tcp_network_recv_system peerAddrOf readsOf
        { TcpNetworkResource.new listener 0 with streams := streams }).1.streams).1 =
      [] ∧
    (reapPhase (build_tcp_network_recv_system peerAddrOf readsOf
        { TcpNetworkResource.new listener 0 with streams := streams }).1.streams).2.length =
      streams.length := by
  have hbuf : ({ TcpNetworkResource.new listener 0 with
      streams := streams } : TcpNetworkResource).recv_buffer.length = 0 := rfl
  have hmain : ∀ e2 ∈ (build_tcp_network_recv_system peerAddrOf readsOf
      { TcpNetworkResource.new listener 0 with streams := streams }).1.streams,
      e2.active = false := by
    intro e2 h2
    exact recvAll_zero_buf peerAddrOf readsOf streams h e2
      (by simpa [build_tcp_network_recv_system, hbuf] using h2)
  have hlen : (build_tcp_network_recv_system peerAddrOf readsOf
      { TcpNetworkResource.new listener 0 with streams := streams }).1.streams.length =
      streams.length := by
    simp only [build_tcp_network_recv_system]
    exact recvAll_length _ peerAddrOf readsOf streams
  obtain ⟨h1, h2⟩ := reapPhase_all_dead _ hmain
  exact ⟨hmain, h1, by rw [h2, hlen]⟩

theorem tcp_zero_recv_buffer_kills_all_witness :
    (∀ e2 ∈ (build_tcp_network_recv_system (fun _ => .ok 8)
        (fun _ => [.ok [7, 7], .err ⟨.wouldBlock⟩])
        { TcpNetworkResource.new none 0 with
          streams := [⟨3, true, 1⟩, ⟨4, true, 2⟩] }).1.streams,
      e2.active = false) ∧
    (reapPhase (build_tcp_network_recv_system (fun _ => .ok 8)
        (fun _ => [.ok [7, 7], .err ⟨.wouldBlock⟩])
        { TcpNetworkResource.new none 0 with
          streams := [⟨3, true, 1⟩, ⟨4, true, 2⟩] }).1.streams).2.length = 2 := by
  have := tcp_zero_recv_buffer_kills_all none (fun _ => .ok 8)
    (fun _ => [.ok [7, 7], .err ⟨.wouldBlock⟩]) [⟨3, true, 1⟩, ⟨4, true, 2⟩]
    (fun e _ _ => ⟨⟨8, rfl⟩, [7, 7], [.err ⟨.wouldBlock⟩], rfl⟩)
  exact ⟨this.1, this.2.2⟩

theorem readLoop_no_disconnect (bufLen : Nat) (p a : Addr) :
    ∀ outs : List ReadOutcome,
      NetworkSimulationEvent.Disconnect a ∉ (readLoop bufLen p outs).2 := by
  intro outs
  induction outs with
  | nil => simp [readLoop]
  | cons o rest ih =>
    cases o with
    | ok avail =>
      by_cases hn : 0 < min bufLen avail.length
      · simp [readLoop, hn, ih]
      · simp [readLoop, hn]
    | err e =>
      rcases e with ⟨k⟩
      cases k <;> simp [readLoop]

theorem recvEntry_no_disconnect (bufLen : Nat)
    (peerAddrOf : StreamHandle → Except IOError Addr)
    (readsOf : StreamHandle → List ReadOutcome) (e : StreamEntry) (a : Addr) :
    NetworkSimulationEvent.Disconnect a ∉ (recvEntry bufLen peerAddrOf readsOf e).2 := by
  cases hp : peerAddrOf e.handle with
  | error e0 => simp [recvEntry, hp]
  | ok p =>
    simp only [recvEntry, hp]
    exact readLoop_no_disconnect bufLen p a (readsOf e.handle)

theorem recvAll_no_disconnect (bufLen : Nat)
    (peerAddrOf : StreamHandle → Except IOError Addr)
    (readsOf : StreamHandle → List ReadOutcome) (a : Addr) :
    ∀ l : List StreamEntry,
      NetworkSimulationEvent.Disconnect a ∉ (recvAll bufLen peerAddrOf readsOf l).2 := by
  intro l
  induction l with
  | nil => simp [recvAll]
  | cons e rest ih =>
    simp only [recvAll, List.mem_append]
    intro hmem
    rcases hmem with h | h
    · exact recvEntry_no_disconnect bufLen peerAddrOf readsOf e a h
    · exact ih h

theorem recvAll_append (bufLen : Nat) (peerAddrOf : StreamHandle → Except IOError Addr)
    (readsOf : StreamHandle → List ReadOutcome) :
    ∀ l1 l2 : List StreamEntry,
      recvAll bufLen peerAddrOf readsOf (l1 ++ l2) =
        ((recvAll bufLen peerAddrOf readsOf l1).1 ++
           (recvAll bufLen peerAddrOf readsOf l2).1,
         (recvAll bufLen peerAddrOf readsOf l1).2 ++
           (recvAll bufLen peerAddrOf readsOf l2).2) := by
  intro l1 l2
  induction l1 with
  | nil => simp [recvAll]
  | cons e rest ih => simp [recvAll, ih]

theorem recvEntry_addr (bufLen : Nat) (peerAddrOf : StreamHandle → Except IOError Addr)
    (readsOf : StreamHandle → List ReadOutcome) (e : StreamEntry) :
    (recvEntry bufLen peerAddrOf readsOf e).1.addr = e.addr := by
  cases hp : peerAddrOf e.handle <;> simp [recvEntry, hp]

theorem recvAll_addr_mem (bufLen : Nat) (peerAddrOf : StreamHandle → Except IOError Addr)
    (readsOf : StreamHandle → List ReadOutcome) :
    ∀ l : List StreamEntry, ∀ e2 ∈ (recvAll bufLen peerAddrOf readsOf l).1,
      ∃ e ∈ l, e2.addr = e.addr := by
  intro l
  induction l with
  | nil => intro e2 h2; simp [recvAll] at h2
  | cons e rest ih =>
    intro e2 h2
    rcases List.mem_cons.mp (by simpa [recvAll] using h2) with rfl | hmem
    · exact ⟨e, List.mem_cons_self e rest, recvEntry_addr bufLen peerAddrOf readsOf e⟩
    · obtain ⟨x, hx, he⟩ := ih e2 hmem
      exact ⟨x, List.mem_cons_of_mem e hx, he⟩

theorem connectPhase_no_disconnect (c : Addr → Except IOError StreamHandle)
    (ms : List Message) :
    ∀ s a, NetworkSimulationEvent.Disconnect a ∉ (connectPhase c ms s).2.1 := by
  induction ms with
  | nil => intro s a; simp [connectPhase]
  | cons m rest ih =>
    intro s a
    by_cases hk : hasStream s m.destination
    · simpa [connectPhase, hk] using ih s a
    · cases hc : c m.destination with
      | error e =>
        have hev : (connectPhase c (m :: rest) s).2.1 =
            .ConnectionError e (some m.destination) :: (connectPhase c rest s).2.1 := by
          simp [connectPhase, hk, hc]
        rw [hev]
        intro hmem
        rcases List.mem_cons.mp hmem with h | h
        · exact absurd h (by simp)
        · exact ih s a h
      | ok h =>
        have hev : (connectPhase c (m :: rest) s).2.1 =
            (connectPhase c rest (s ++ [⟨m.destination, true, h⟩])).2.1 := by
          simp [connectPhase, hk, hc]
        rw [hev]
        exact ih (s ++ [⟨m.destination, true, h⟩]) a

/-- C2: if a live stream-backend connection's read returns zero bytes
during a receive pass, then after that pass the connection is marked dead
but still present in the table and the pass emitted no Disconnect; after
the next tick's maintenance pass (over any outbound queue) the table no
longer contains the address and exactly one Disconnect(addr) was emitted,
at that later pass. -/
theorem tcp_dead_peer_disconnect_next_tick
    (peerAddrOf : StreamHandle → Except IOError Addr)
    (readsOf : StreamHandle → List ReadOutcome)
    (connect : Addr → Except IOError StreamHandle)
    (net : TcpNetworkResource) (t2 : TransportResource)
    (pre post : List StreamEntry) (entry : StreamEntry) (p : Addr)
    (avail : Payload) (rest : List ReadOutcome)
    (hs : net.streams = pre ++ entry :: post)
    (hactive : entry.active = true)
    (hkeys : ∀ e ∈ pre ++ post, e.addr ≠ entry.addr)
    (hpeer : peerAddrOf entry.handle = .ok p)
    (hreads : readsOf entry.handle = .ok avail :: rest)
    (hzero : min net.recv_buffer.length avail.length = 0) :
    ({ entry with active := false } ∈
      (build_tcp_network_recv_system peerAddrOf readsOf net).1.streams) ∧
    (∀ a, NetworkSimulationEvent.Disconnect a ∉
      (build_tcp_network_recv_system peerAddrOf readsOf net).2) ∧
    (hasStream ((build_tcp_stream_management_system connect t2
        (build_tcp_network_recv_system peerAddrOf readsOf net).1).2.1).streams
      entry.addr = false) ∧
    ((build_tcp_stream_management_system connect t2
        (build_tcp_network_recv_system peerAddrOf readsOf net).1).2.2.1.count
      (NetworkSimulationEvent.Disconnect entry.addr) = 1) := by
  have hentry : recvEntry net.recv_buffer.length peerAddrOf readsOf entry =
      ({ entry with active := false }, []) := by
    simp [recvEntry, hpeer, hreads, readLoop, hzero]
  have hstreams : (build_tcp_network_recv_system peerAddrOf readsOf net).1.streams =
      (recvAll net.recv_buffer.length peerAddrOf readsOf pre).1 ++
        { entry with active := false } ::
          (recvAll net.recv_buffer.length peerAddrOf readsOf post).1 := by
    show (recvAll net.recv_buffer.length peerAddrOf readsOf net.streams).1 = _
    rw [hs, recvAll_append net.recv_buffer.length peerAddrOf readsOf pre (entry :: post)]
    simp [recvAll, hentry]
  have hA : ∀ e2 ∈ (recvAll net.recv_buffer.length peerAddrOf readsOf pre).1,
      e2.addr ≠ entry.addr := by
    intro e2 h2
    obtain ⟨e, he, heq⟩ :=
      recvAll_addr_mem net.recv_buffer.length peerAddrOf readsOf pre e2 h2
    rw [heq]
    exact hkeys e (List.mem_append.mpr (Or.inl he))
  have hB : ∀ e2 ∈ (recvAll net.recv_buffer.length peerAddrOf readsOf post).1,
      e2.addr ≠ entry.addr := by
    intro e2 h2
    obtain ⟨e, he, heq⟩ :=
      recvAll_addr_mem net.recv_buffer.length peerAddrOf readsOf post e2 h2
    rw [heq]
    exact hkeys e (List.mem_append.mpr (Or.inr he))
  refine ⟨?_, ?_, ?_, ?_⟩
  · rw [hstreams]
    exact List.mem_append.mpr (Or.inr (List.mem_cons_self _ _))
  · intro a
    show NetworkSimulationEvent.Disconnect a ∉
      (recvAll net.recv_buffer.length peerAddrOf readsOf net.streams).2
    exact recvAll_no_disconnect net.recv_buffer.length peerAddrOf readsOf a net.streams
  · show hasStream (reapPhase (connectPhase connect t2.get_messages
        (build_tcp_network_recv_system peerAddrOf readsOf net).1.streams).1).1
      entry.addr = false
    rw [hstreams]
    obtain ⟨new, hdec, hnew⟩ := connectPhase_streams_decomp connect t2.get_messages
      ((recvAll net.recv_buffer.length peerAddrOf readsOf pre).1 ++
        { entry with active := false } ::
          (recvAll net.recv_buffer.length peerAddrOf readsOf post).1)
    have hs0a : hasStream
        ((recvAll net.recv_buffer.length peerAddrOf readsOf pre).1 ++
          { entry with active := false } ::
            (recvAll net.recv_buffer.length peerAddrOf readsOf post).1)
        entry.addr = true := by
      simp [hasStream, List.any_append, List.any_cons]
    have hnewa : ∀ e ∈ new, e.addr ≠ entry.addr := by
      intro e he heq
      have hfalse := (hnew e he).2
      rw [heq, hs0a] at hfalse
      exact absurd hfalse (by simp)
    rw [reapPhase_keys, hdec, List.any_append, List.any_append, List.any_cons]
    have p1 : (recvAll net.recv_buffer.length peerAddrOf readsOf pre).1.any
        (fun e => e.addr == entry.addr && e.active) = false := by
      rw [List.any_eq_false]
      intro e he
      simp [hA e he]
    have p2 : (recvAll net.recv_buffer.length peerAddrOf readsOf post).1.any
        (fun e => e.addr == entry.addr && e.active) = false := by
      rw [List.any_eq_false]
      intro e he
      simp [hB e he]
    have p3 : new.any (fun e => e.addr == entry.addr && e.active) = false := by
      rw [List.any_eq_false]
      intro e he
      simp [hnewa e he]
    rw [p1, p2, p3]
    simp
  · show ((connectPhase connect t2.get_messages
        (build_tcp_network_recv_system peerAddrOf readsOf net).1.streams).2.1 ++
        (reapPhase (connectPhase connect t2.get_messages
          (build_tcp_network_recv_system peerAddrOf readsOf net).1.streams).1).2).count
      (NetworkSimulationEvent.Disconnect entry.addr) = 1
    rw [hstreams]
    obtain ⟨new, hdec, hnew⟩ := connectPhase_streams_decomp connect t2.get_messages
      ((recvAll net.recv_buffer.length peerAddrOf readsOf pre).1 ++
        { entry with active := false } ::
          (recvAll net.recv_buffer.length peerAddrOf readsOf post).1)
    have hs0a : hasStream
        ((recvAll net.recv_buffer.length peerAddrOf readsOf pre).1 ++
          { entry with active := false } ::
            (recvAll net.recv_buffer.length peerAddrOf readsOf post).1)
        entry.addr = true := by
      simp [hasStream, List.any_append, List.any_cons]
    have hnewa : ∀ e ∈ new, e.addr ≠ entry.addr := by
      intro e he heq
      have hfalse := (hnew e he).2
      rw [heq, hs0a] at hfalse
      exact absurd hfalse (by simp)
    rw [List.count_append]
    have hc0 : (connectPhase connect t2.get_messages
        ((recvAll net.recv_buffer.length peerAddrOf readsOf pre).1 ++
          { entry with active := false } ::
            (recvAll net.recv_buffer.length peerAddrOf readsOf post).1)).2.1.count
        (NetworkSimulationEvent.Disconnect entry.addr) = 0 :=
      List.count_eq_zero.mpr (connectPhase_no_disconnect connect t2.get_messages _
        entry.addr)
    rw [hc0, reapPhase_count, hdec, List.countP_append, List.countP_append,
      List.countP_cons]
    have q1 : (recvAll net.recv_buffer.length peerAddrOf readsOf pre).1.countP
        (fun e => e.addr == entry.addr && !e.active) = 0 := by
      rw [List.countP_eq_zero]
      intro e he
      simp [hA e he]
    have q2 : (recvAll net.recv_buffer.length peerAddrOf readsOf post).1.countP
        (fun e => e.addr == entry.addr && !e.active) = 0 := by
      rw [List.countP_eq_zero]
      intro e he
      simp [hB e he]
    have q3 : new.countP (fun e => e.addr == entry.addr && !e.active) = 0 := by
      rw [List.countP_eq_zero]
      intro e he
      simp [hnewa e he]
    rw [q1, q2, q3]
    simp

theorem tcp_dead_peer_disconnect_next_tick_witness :
    ((⟨3, false, 1⟩ : StreamEntry) ∈
      (build_tcp_network_recv_system (fun _ => .ok 3) (fun _ => [.ok []])
        ⟨none, [⟨3, true, 1⟩], [0]⟩).1.streams) ∧
    (∀ a, NetworkSimulationEvent.Disconnect a ∉
      (build_tcp_network_recv_system (fun _ => .ok 3) (fun _ => [.ok []])
        ⟨none, [⟨3, true, 1⟩], [0]⟩).2) ∧
    (hasStream ((build_tcp_stream_management_system (fun _ => .ok 0) ⟨[]⟩
        (build_tcp_network_recv_system (fun _ => .ok 3) (fun _ => [.ok []])
          ⟨none, [⟨3, true, 1⟩], [0]⟩).1).2.1).streams 3 = false) ∧
    ((build_tcp_stream_management_system (fun _ => .ok 0) ⟨[]⟩
        (build_tcp_network_recv_system (fun _ => .ok 3) (fun _ => [.ok []])
          ⟨none, [⟨3, true, 1⟩], [0]⟩).1).2.2.1.count
      (NetworkSimulationEvent.Disconnect 3) = 1) :=
  tcp_dead_peer_disconnect_next_tick (fun _ => .ok 3) (fun _ => [.ok []])
    (fun _ => .ok 0) ⟨none, [⟨3, true, 1⟩], [0]⟩ ⟨[]⟩ [] [] ⟨3, true, 1⟩ 3 [] []
    rfl rfl (by simp) rfl rfl (by decide)
